import Mathlib

/-!
# provider-kind: the Cluster reconciler

A shallow embedding of `internal/controller/cluster/cluster.go` and of the types of
`apis/cluster/v1alpha1/cluster_types.go`.

Conventions of the embedding.

* A Go `string` is a `String`; `[]byte(s)` and `string(b)` are the identity.
* A Go pointer field (`*string`, `*bool`, `*int32`, `*Networking`) is an `Option`; `nil` is `none`.
* A Go slice is a `List` (`nil` and the empty slice are both `[]`); `append` adds at the end.
* A Go `map[string]T` is an association list read with `mapGet` and written with `mapSet`.
* A Go result pair `(v, err)` is a pair `(v, e)` with `e : Option String`; `nil` is `none` and
  an error is identified with its message.
* A method that mutates the resource through its pointer returns the resource after the call.
* Every call that leaves the process for the KIND backend is recorded in a list of `BackendCall`.
-/

namespace ProviderKind

/-! ## Go helpers -/

/-- Lookup in a Go map: the zero value (the empty string) when the key is missing. -/
def mapGet : List (String × String) → String → String
  | [], _ => ""
  | (k', v) :: rest, k => if k' = k then v else mapGet rest k

/-- Assignment `m[k] = v` in a Go map. -/
def mapSet : List (String × String) → String → String → List (String × String)
  | [], k, v => [(k, v)]
  | (k', v') :: rest, k, v => if k' = k then (k, v) :: rest else (k', v') :: mapSet rest k v

/-- Go `errors.Wrap(err, msg)`: the message of the wrapped error is `msg: err`. -/
def Wrap (err : String) (msg : String) : String := msg ++ ": " ++ err

/-- Go `unicode.IsSpace`. -/
def isSpace (c : Char) : Bool :=
  let n := c.toNat
  (0x09 ≤ n && n ≤ 0x0D) || n == 0x20 || n == 0x85 || n == 0xA0 || n == 0x1680 ||
  (0x2000 ≤ n && n ≤ 0x200A) || n == 0x2028 || n == 0x2029 || n == 0x202F || n == 0x205F ||
  n == 0x3000

/-- Go `strings.TrimSpace`: leading and trailing white space removed. -/
def TrimSpace (s : String) : String :=
  String.mk ((s.data.dropWhile isSpace).reverse.dropWhile isSpace).reverse

/-! ## `apis/cluster/v1alpha1/cluster_types.go` -/

namespace clusterv1alpha1

structure Mount where
  HostPath : String := ""
  ContainerPath : String := ""
  Readonly : Option Bool := none
  SelinuxRelabel : Option Bool := none
  Propagation : Option String := none
deriving DecidableEq, Repr

structure PortMapping where
  ContainerPort : Int := 0
  HostPort : Int := 0
  ListenAddress : Option String := none
  Protocol : Option String := none
deriving DecidableEq, Repr

structure Node where
  Role : String := ""
  Image : Option String := none
  ExtraMounts : List Mount := []
  ExtraPortMappings : List PortMapping := []
  KubeadmConfigPatches : List String := []
  Labels : List (String × String) := []
deriving DecidableEq, Repr

structure Networking where
  IPFamily : Option String := none
  APIServerAddress : Option String := none
  APIServerPort : Option Int := none
  PodSubnet : Option String := none
  ServiceSubnet : Option String := none
  DisableDefaultCNI : Option Bool := none
  KubeProxyMode : Option String := none
deriving DecidableEq, Repr

structure ClusterParameters where
  Nodes : List Node := []
  Networking : Option Networking := none
  FeatureGates : List (String × Bool) := []
  RuntimeConfig : List (String × String) := []
  KubeProxyMode : Option String := none
  ContainerdConfigPatches : List String := []
  WaitForReady : Option String := none
deriving DecidableEq, Repr

structure NodeObservation where
  Name : String := ""
  Role : String := ""
  Status : String := ""
  Image : String := ""
  IPAddress : String := ""
  IPv6Address : String := ""
deriving DecidableEq, Repr

structure ClusterObservation where
  Ready : Bool := false
  Nodes : List NodeObservation := []
  APIServerEndpoint : Option String := none
deriving DecidableEq, Repr

/-- A status condition (`xpv1.Condition`); the transition time is not modelled. -/
structure Condition where
  CondType : String
  Status : String
  Reason : String
deriving DecidableEq, Repr

/-- The part of `metav1.ObjectMeta` the reconciler reads and writes. -/
structure ObjectMeta where
  Name : String := ""
  Annotations : List (String × String) := []
deriving DecidableEq, Repr

structure ClusterSpec where
  ForProvider : ClusterParameters := {}
deriving DecidableEq, Repr

structure ClusterStatus where
  Conditions : List Condition := []
  AtProvider : ClusterObservation := {}
deriving DecidableEq, Repr

structure Cluster where
  ObjectMeta : ObjectMeta := {}
  Spec : ClusterSpec := {}
  Status : ClusterStatus := {}
deriving DecidableEq, Repr

end clusterv1alpha1

/-! ## The KIND configuration (`sigs.k8s.io/kind/pkg/apis/config/v1alpha4`)

Only the fields `buildKindConfig` assigns are carried; every other field of the backend
configuration keeps its zero value. -/

namespace v1alpha4

structure TypeMeta where
  Kind : String := ""
  APIVersion : String := ""
deriving DecidableEq, Repr

structure Mount where
  ContainerPath : String := ""
  HostPath : String := ""
  Readonly : Bool := false
  SelinuxRelabel : Bool := false
  Propagation : String := ""
deriving DecidableEq, Repr

structure PortMapping where
  ContainerPort : Int := 0
  HostPort : Int := 0
  ListenAddress : String := ""
  Protocol : String := ""
deriving DecidableEq, Repr

structure Node where
  Role : String := ""
  Image : String := ""
  Labels : List (String × String) := []
  ExtraMounts : List Mount := []
  ExtraPortMappings : List PortMapping := []
  KubeadmConfigPatches : List String := []
deriving DecidableEq, Repr

structure Networking where
  IPFamily : String := ""
  APIServerPort : Int := 0
  APIServerAddress : String := ""
  PodSubnet : String := ""
  ServiceSubnet : String := ""
  DisableDefaultCNI : Bool := false
  KubeProxyMode : String := ""
deriving DecidableEq, Repr

structure Cluster where
  TypeMeta : TypeMeta := {}
  Nodes : List Node := []
  Networking : Networking := {}
  FeatureGates : List (String × Bool) := []
  RuntimeConfig : List (String × String) := []
  ContainerdConfigPatches : List String := []
deriving DecidableEq, Repr

/-- The backend's name of the control-plane role (`v1alpha4.ControlPlaneRole`). -/
def ControlPlaneRole : String := "control-plane"

end v1alpha4

/-! ## The environment of the reconciler -/

open clusterv1alpha1 (Cluster ClusterParameters NodeObservation Condition)

/-- Any `resource.Managed` handed to the client: the cluster-scoped `Cluster` this controller
reconciles, or a resource of another kind (for which the Go type assertion fails). -/
inductive Managed where
  | cluster (cr : Cluster)
  | other (kind : String)
deriving DecidableEq, Repr

/-- An option passed to `provider.Create`; a `time.Duration` is its count of nanoseconds. -/
inductive CreateOption where
  | CreateWithV1Alpha4Config (cfg : v1alpha4.Cluster)
  | CreateWithKubeconfigPath (path : String)
  | CreateWithWaitForReady (wait : Int)
deriving DecidableEq, Repr

/-- A node handle returned by `provider.ListNodes` (`nodes.Node` of KIND), given by what its
methods answer: `String()`, `Role()` and `IP()`. -/
structure NodeHandle where
  name : String := ""
  role : String := ""
  roleErr : Option String := none
  ipv4 : String := ""
  ipv6 : String := ""
  ipErr : Option String := none
deriving DecidableEq, Repr

/-- The KIND provider (`kindcluster.Provider`), given by what each of its methods answers.
`ListClusters` is the method `List`. -/
structure Provider where
  ListClusters : List String × Option String
  KubeConfig : String → Bool → String × Option String
  ListNodes : String → List NodeHandle × Option String
  Create : String → List CreateOption → Option String
  Delete : String → String → Option String

/-- What the reconciler uses besides the provider: the `docker inspect` process of `nodeImage`
(output and error of `Output()`), `clientcmd.Load` followed by the range over `Clusters`
(`none` for a parse error, else the server of each cluster entry in the order the range visits
them), and `time.ParseDuration`. -/
structure Host where
  dockerInspect : String → String × Option String
  clientcmdLoad : String → Option (List String)
  ParseDuration : String → Int × Option String

/-- The record `external` of the source: the client for one reconcile. -/
structure external where
  provider : Provider

/-- The record `connector` of the source; `Track` is what the usage tracker built on the `kube`
client answers, and `NewProvider` what `kindcluster.NewProvider()` returns. -/
structure connector where
  Track : Cluster → Option String
  NewProvider : Provider

/-- A call that reaches the KIND backend (the provider, a node handle, or the docker CLI). -/
inductive BackendCall where
  | List
  | KubeConfig (name : String) (internal : Bool)
  | ListNodes (name : String)
  | Create (name : String) (opts : List CreateOption)
  | Delete (name : String) (explicitKubeconfigPath : String)
  | NodeRole (node : String)
  | NodeIP (node : String)
  | DockerInspect (container : String)
deriving DecidableEq, Repr

/-- The cluster name a provider call is made for, if it is a call on the provider by name. -/
def BackendCall.clusterName : BackendCall → Option String
  | .KubeConfig name _ => some name
  | .ListNodes name => some name
  | .Create name _ => some name
  | .Delete name _ => some name
  | _ => none

/-- The Go `managed.ExternalObservation`. -/
structure ExternalObservation where
  ResourceExists : Bool := false
  ResourceUpToDate : Bool := false
  ResourceLateInitialized : Bool := false
  ConnectionDetails : List (String × String) := []
  Diff : String := ""
deriving DecidableEq, Repr

/-- The Go `managed.ExternalCreation`. -/
structure ExternalCreation where
  ConnectionDetails : List (String × String) := []
deriving DecidableEq, Repr

/-- The Go `managed.ExternalUpdate`. -/
structure ExternalUpdate where
  ConnectionDetails : List (String × String) := []
deriving DecidableEq, Repr

/-- The Go `managed.ExternalDelete`. -/
structure ExternalDelete where
deriving DecidableEq, Repr

/-- What a call of an operation leaves behind: the returned value and error, the resource after
the call, and the backend calls made, in order. -/
structure Outcome (α : Type) where
  val : α
  err : Option String
  mg : Managed
  calls : List BackendCall

/-! ## Constants of `cluster.go` -/

def errNotCluster : String := "managed resource is not a Cluster custom resource"
def errTrackUsage : String := "cannot track ProviderConfig usage"
def errListClusters : String := "cannot list KIND clusters"
def errCreateCluster : String := "cannot create KIND cluster"
def errDeleteCluster : String := "cannot delete KIND cluster"
def errGetKubeConfig : String := "cannot get kubeconfig for KIND cluster"
def errGetNodes : String := "cannot list KIND cluster nodes"
def errParseWait : String := "cannot parse waitForReady duration"

/-- Go `os.DevNull`. -/
def DevNull : String := "/dev/null"

/-- The annotation that holds the external name (`meta.AnnotationKeyExternalName`). -/
def AnnotationKeyExternalName : String := "crossplane.io/external-name"

/-! ## crossplane-runtime helpers used on the resource -/

/-- Go `meta.GetExternalName`. -/
def GetExternalName (cr : Cluster) : String :=
  mapGet cr.ObjectMeta.Annotations AnnotationKeyExternalName

/-- Go `meta.SetExternalName`. -/
def SetExternalName (cr : Cluster) (name : String) : Cluster :=
  { cr with ObjectMeta := { cr.ObjectMeta with
      Annotations := mapSet cr.ObjectMeta.Annotations AnnotationKeyExternalName name } }

def Available : Condition := ⟨"Ready", "True", "Available"⟩
def Unavailable : Condition := ⟨"Ready", "False", "Unavailable"⟩
def Creating : Condition := ⟨"Ready", "False", "Creating"⟩
def Deleting : Condition := ⟨"Ready", "False", "Deleting"⟩

/-- Go `SetConditions` for one condition: it replaces the conditions of the same type, and is
appended when there is none. -/
def SetConditions (cr : Cluster) (c : Condition) : Cluster :=
  let cs := cr.Status.Conditions
  let cs1 := cs.map (fun existing => if existing.CondType = c.CondType then c else existing)
  let cs2 := if cs.any (fun existing => existing.CondType = c.CondType) then cs1 else cs1 ++ [c]
  { cr with Status := { cr.Status with Conditions := cs2 } }

/-! ## `cluster.go`: helpers -/

/-- The function `nodeImage` of the source: the output of `docker inspect` for the container,
trimmed, and the empty string when the command fails. -/
def nodeImage (h : Host) (containerName : String) : String :=
  match h.dockerInspect containerName with
  | (_, some _) => ""
  | (out, none) => TrimSpace out

/-- The function `getClusterName` of the source. -/
def getClusterName (cr : Cluster) : String :=
  if GetExternalName cr ≠ "" then GetExternalName cr else cr.ObjectMeta.Name

/-- The body of the loop over `node.ExtraMounts` in `buildKindConfig`. -/
def buildMount (m : clusterv1alpha1.Mount) : v1alpha4.Mount :=
  let mount : v1alpha4.Mount := { HostPath := m.HostPath, ContainerPath := m.ContainerPath }
  let mount := match m.Readonly with
    | some b => { mount with Readonly := b }
    | none => mount
  let mount := match m.SelinuxRelabel with
    | some b => { mount with SelinuxRelabel := b }
    | none => mount
  let mount := match m.Propagation with
    | some p => { mount with Propagation := p }
    | none => mount
  mount

/-- The body of the loop over `node.ExtraPortMappings` in `buildKindConfig`. -/
def buildPortMapping (pm : clusterv1alpha1.PortMapping) : v1alpha4.PortMapping :=
  let portMap : v1alpha4.PortMapping :=
    { ContainerPort := pm.ContainerPort, HostPort := pm.HostPort }
  let portMap := match pm.ListenAddress with
    | some a => { portMap with ListenAddress := a }
    | none => portMap
  let portMap := match pm.Protocol with
    | some p => { portMap with Protocol := p }
    | none => portMap
  portMap

/-- The body of the loop over `params.Nodes` in `buildKindConfig`. -/
def buildNode (node : clusterv1alpha1.Node) : v1alpha4.Node :=
  let n : v1alpha4.Node := { Role := node.Role }
  let n := match node.Image with
    | some image => { n with Image := image }
    | none => n
  let n := node.ExtraMounts.foldl
    (fun n m => { n with ExtraMounts := n.ExtraMounts ++ [buildMount m] }) n
  let n := node.ExtraPortMappings.foldl
    (fun n pm => { n with ExtraPortMappings := n.ExtraPortMappings ++ [buildPortMapping pm] }) n
  let n := { n with KubeadmConfigPatches := node.KubeadmConfigPatches }
  let n := { n with Labels := node.Labels }
  n

/-- The block of `buildKindConfig` guarded by `params.Networking != nil`. -/
def buildNetworking (net : clusterv1alpha1.Networking) (cfg : v1alpha4.Networking) :
    v1alpha4.Networking :=
  let cfg := match net.IPFamily with
    | some v => { cfg with IPFamily := v }
    | none => cfg
  let cfg := match net.APIServerAddress with
    | some v => { cfg with APIServerAddress := v }
    | none => cfg
  let cfg := match net.APIServerPort with
    | some v => { cfg with APIServerPort := v }
    | none => cfg
  let cfg := match net.PodSubnet with
    | some v => { cfg with PodSubnet := v }
    | none => cfg
  let cfg := match net.ServiceSubnet with
    | some v => { cfg with ServiceSubnet := v }
    | none => cfg
  let cfg := match net.DisableDefaultCNI with
    | some v => { cfg with DisableDefaultCNI := v }
    | none => cfg
  let cfg := match net.KubeProxyMode with
    | some v => { cfg with KubeProxyMode := v }
    | none => cfg
  cfg

/-- The guard of the top-level kube-proxy mode in `buildKindConfig`:
`params.Networking == nil || params.Networking.KubeProxyMode == nil`. -/
def networkingModeUnset (params : ClusterParameters) : Bool :=
  match params.Networking with
  | none => true
  | some net => net.KubeProxyMode.isNone

/-- The function `buildKindConfig` of the source. -/
def buildKindConfig (params : ClusterParameters) : v1alpha4.Cluster :=
  let cfg : v1alpha4.Cluster :=
    { TypeMeta := { Kind := "Cluster", APIVersion := "kind.x-k8s.io/v1alpha4" } }
  let cfg := params.Nodes.foldl (fun cfg node => { cfg with Nodes := cfg.Nodes ++ [buildNode node] }) cfg
  let cfg := match params.Networking with
    | some net => { cfg with Networking := buildNetworking net cfg.Networking }
    | none => cfg
  let cfg := { cfg with FeatureGates := params.FeatureGates }
  let cfg := { cfg with RuntimeConfig := params.RuntimeConfig }
  let cfg := match params.KubeProxyMode with
    | some mode =>
      if networkingModeUnset params then
        { cfg with Networking := { cfg.Networking with KubeProxyMode := mode } }
      else cfg
    | none => cfg
  let cfg := { cfg with ContainerdConfigPatches := params.ContainerdConfigPatches }
  cfg

/-! ## `cluster.go`: the connector and the external client -/

/-- The method `connector.Connect` of the source. -/
def Connect (c : connector) (mg : Managed) : Outcome (Option external) :=
  match mg with
  | .other _ => ⟨none, some errNotCluster, mg, []⟩
  | .cluster cr =>
    match c.Track cr with
    | some err => ⟨none, some (Wrap err errTrackUsage), mg, []⟩
    | none => ⟨some { provider := c.NewProvider }, none, mg, []⟩

/-- The loop of `Observe` that looks for `clusterName` among the listed clusters. -/
def containsName : List String → String → Bool
  | [], _ => false
  | c :: rest, clusterName => if c = clusterName then true else containsName rest clusterName

/-- The block of `Observe` that records the API server endpoint: the server of the first cluster
entry visited, when the kubeconfig loads; the resource is left as it is otherwise. -/
def recordEndpoint (h : Host) (kubeconfig : String) (cr : Cluster) : Cluster :=
  match h.clientcmdLoad kubeconfig with
  | some (endpoint :: _) =>
    { cr with Status := { cr.Status with
        AtProvider := { cr.Status.AtProvider with APIServerEndpoint := some endpoint } } }
  | _ => cr

/-- The loop of `Observe` over the node handles, on its three variables: the observations
collected so far, `allReady`, and the backend calls made so far. -/
def observeNodes (h : Host) :
    List NodeHandle → List NodeObservation → Bool → List BackendCall →
      List NodeObservation × Bool × List BackendCall
  | [], nodeObs, allReady, calls => (nodeObs, allReady, calls)
  | n :: rest, nodeObs, allReady, calls =>
    let calls := calls ++ [.NodeRole n.name, .NodeIP n.name, .DockerInspect n.name]
    let obs : NodeObservation :=
      { Name := n.name, Role := n.role, IPAddress := n.ipv4, IPv6Address := n.ipv6,
        Image := nodeImage h n.name }
    if n.roleErr.isNone && n.ipErr.isNone then
      observeNodes h rest (nodeObs ++ [{ obs with Status := "Running" }]) allReady calls
    else
      observeNodes h rest (nodeObs ++ [{ obs with Status := "Unknown" }]) false calls

/-- The method `external.Observe` of the source. -/
def Observe (h : Host) (e : external) (mg : Managed) : Outcome ExternalObservation :=
  match mg with
  | .other _ => ⟨{}, some errNotCluster, mg, []⟩
  | .cluster cr =>
    let clusterName := getClusterName cr
    match e.provider.ListClusters with
    | (_, some err) => ⟨{}, some (Wrap err errListClusters), mg, [.List]⟩
    | (clusters, none) =>
      if !containsName clusters clusterName then
        ⟨{ ResourceExists := false }, none, mg, [.List]⟩
      else
        match e.provider.KubeConfig clusterName false with
        | (_, some err) =>
          ⟨{}, some (Wrap err errGetKubeConfig), mg, [.List, .KubeConfig clusterName false]⟩
        | (kubeconfig, none) =>
          let cr := recordEndpoint h kubeconfig cr
          let calls : List BackendCall :=
            [.List, .KubeConfig clusterName false, .ListNodes clusterName]
          match e.provider.ListNodes clusterName with
          | (_, some err) => ⟨{}, some (Wrap err errGetNodes), .cluster cr, calls⟩
          | (nodes, none) =>
            match observeNodes h nodes [] (decide (nodes.length > 0)) calls with
            | (nodeObs, allReady, calls) =>
              let cr := { cr with Status := { cr.Status with
                AtProvider := { cr.Status.AtProvider with Nodes := nodeObs } } }
              let cr := { cr with Status := { cr.Status with
                AtProvider := { cr.Status.AtProvider with Ready := allReady } } }
              let cr := if allReady then SetConditions cr Available
                else SetConditions cr Unavailable
              ⟨{ ResourceExists := true, ResourceUpToDate := true,
                 ConnectionDetails := [("kubeconfig", kubeconfig)] }, none, .cluster cr, calls⟩

/-- The method `external.Create` of the source. -/
def Create (h : Host) (e : external) (mg : Managed) : Outcome ExternalCreation :=
  match mg with
  | .other _ => ⟨{}, some errNotCluster, mg, []⟩
  | .cluster cr =>
    let cr := SetConditions cr Creating
    let clusterName := getClusterName cr
    let cr := SetExternalName cr clusterName
    let kindConfig := buildKindConfig cr.Spec.ForProvider
    let opts : List CreateOption :=
      [.CreateWithV1Alpha4Config kindConfig, .CreateWithKubeconfigPath DevNull]
    let parsed : Except String (List CreateOption) :=
      match cr.Spec.ForProvider.WaitForReady with
      | some w =>
        match h.ParseDuration w with
        | (_, some err) => .error (Wrap err errParseWait)
        | (wait, none) => .ok (opts ++ [.CreateWithWaitForReady wait])
      | none => .ok opts
    match parsed with
    | .error err => ⟨{}, some err, .cluster cr, []⟩
    | .ok opts =>
      match e.provider.Create clusterName opts with
      | some err => ⟨{}, some (Wrap err errCreateCluster), .cluster cr, [.Create clusterName opts]⟩
      | none =>
        let calls : List BackendCall := [.Create clusterName opts, .KubeConfig clusterName false]
        match e.provider.KubeConfig clusterName false with
        | (_, some err) => ⟨{}, some (Wrap err errGetKubeConfig), .cluster cr, calls⟩
        | (kubeconfig, none) =>
          ⟨{ ConnectionDetails := [("kubeconfig", kubeconfig)] }, none, .cluster cr, calls⟩

/-- The method `external.Disconnect` of the source. -/
def Disconnect (_e : external) : Option String := none

/-- The method `external.Update` of the source. -/
def Update (_e : external) (mg : Managed) : Outcome ExternalUpdate :=
  ⟨{}, none, mg, []⟩

/-- The method `external.Delete` of the source. -/
def Delete (e : external) (mg : Managed) : Outcome ExternalDelete :=
  match mg with
  | .other _ => ⟨{}, some errNotCluster, mg, []⟩
  | .cluster cr =>
    let cr := SetConditions cr Deleting
    let clusterName := getClusterName cr
    match e.provider.Delete clusterName DevNull with
    | some err =>
      ⟨{}, some (Wrap err errDeleteCluster), .cluster cr, [.Delete clusterName DevNull]⟩
    | none => ⟨{}, none, .cluster cr, [.Delete clusterName DevNull]⟩

/-! ## Auxiliary definitions used in the statements -/

/-- Both queries on the node handle, `Role()` and `IP()`, returned no error. -/
def nodeResolved (n : NodeHandle) : Bool := n.roleErr.isNone && n.ipErr.isNone

/-- The observation that one pass of the loop of `Observe` appends for a node handle. -/
def observeNode (h : Host) (n : NodeHandle) : NodeObservation :=
  { Name := n.name, Role := n.role, IPAddress := n.ipv4, IPv6Address := n.ipv6,
    Image := nodeImage h n.name,
    Status := if nodeResolved n then "Running" else "Unknown" }

/-- The backend calls of one pass of the loop of `Observe`. -/
def nodeCalls (n : NodeHandle) : List BackendCall :=
  [.NodeRole n.name, .NodeIP n.name, .DockerInspect n.name]

/-! ## Sample inputs

A host with one KIND cluster `dev` of a single healthy control-plane node and one cluster `lab`
whose worker does not answer its IP query. -/

def sampleProvider : Provider :=
  { ListClusters := (["lab", "dev"], none)
    KubeConfig := fun name _ =>
      if name = "dev" then ("kubeconfig-of-dev", none)
      else if name = "lab" then ("kubeconfig-of-lab", none)
      else ("", some "could not locate any control plane nodes")
    ListNodes := fun name =>
      if name = "dev" then
        ([{ name := "dev-control-plane", role := "control-plane", ipv4 := "172.18.0.2" }], none)
      else if name = "lab" then
        ([{ name := "lab-control-plane", role := "control-plane", ipv4 := "172.18.0.3" },
          { name := "lab-worker", role := "worker", ipErr := some "failed to get container details" }],
          none)
      else ([], none)
    Create := fun _ _ => none
    Delete := fun _ _ => none }

def sampleExternal : external := { provider := sampleProvider }

def sampleHost : Host :=
  { dockerInspect := fun containerName =>
      if containerName = "dev-control-plane" then ("kindest/node:v1.31.0\n", none)
      else ("", some "exit status 1")
    clientcmdLoad := fun kubeconfig =>
      if kubeconfig = "kubeconfig-of-dev" then some ["https://127.0.0.1:6443"] else none
    ParseDuration := fun s =>
      if s = "30s" then (30000000000, none)
      else if s = "5m" then (300000000000, none)
      else (0, some ("time: invalid duration " ++ s)) }

/-- A `Cluster` named `dev` with no external name yet and an empty desired spec. -/
def sampleCluster : Cluster := { ObjectMeta := { Name := "dev" } }

/-- A `Cluster` named `lab` whose external name is already set. -/
def sampleLab : Cluster :=
  { ObjectMeta := { Name := "lab-resource", Annotations := [(AnnotationKeyExternalName, "lab")] } }

/-- A `Cluster` whose `waitForReady` is not a duration. -/
def sampleBadWait : Cluster :=
  { ObjectMeta := { Name := "dev" },
    Spec := { ForProvider := { WaitForReady := some "not-a-duration" } } }

/-- A `Cluster` for which the backend has no cluster. -/
def sampleAbsent : Cluster := { ObjectMeta := { Name := "staging" } }

/-- The resource `sampleLab` with a stale observed state left by an earlier reconcile. -/
def sampleLabStale : Cluster :=
  { sampleLab with Status := { sampleLab.Status with
      AtProvider := { Ready := true, Nodes := [],
                      APIServerEndpoint := some "https://127.0.0.1:40000" } } }

/-- The resource `cr` with its observed state replaced by `prior`. -/
def withObserved (cr : Cluster) (prior : clusterv1alpha1.ClusterObservation) : Cluster :=
  { cr with Status := { cr.Status with AtProvider := prior } }

/-- A worker node with an image, one mount, one port mapping, a patch and a label. -/
def sampleWorker : clusterv1alpha1.Node :=
  { Role := "worker", Image := some "kindest/node:v1.31.0",
    ExtraMounts :=
      [{ HostPath := "/data", ContainerPath := "/mnt/data", Readonly := some true,
         Propagation := some "HostToContainer" }],
    ExtraPortMappings :=
      [{ ContainerPort := 80, HostPort := 8080, Protocol := some "TCP" }],
    KubeadmConfigPatches := ["kind: JoinConfiguration"],
    Labels := [("tier", "backend")] }

/-- A desired spec of two nodes: the first leaves its role and every optional field unset, the
second is `sampleWorker`. -/
def sampleParams : ClusterParameters :=
  { Nodes := [{ Role := "" }, sampleWorker],
    Networking := some { PodSubnet := some "10.244.0.0/16", DisableDefaultCNI := some true },
    ContainerdConfigPatches := ["p1", "p2", "p3"] }

/-! The values of the backend enums `MountPropagation` and `PortMappingProtocol` of the KIND
configuration package. -/

def v1alpha4.MountPropagationNone : String := "None"
def v1alpha4.MountPropagationHostToContainer : String := "HostToContainer"
def v1alpha4.MountPropagationBidirectional : String := "Bidirectional"
def v1alpha4.PortMappingProtocolTCP : String := "TCP"
def v1alpha4.PortMappingProtocolUDP : String := "UDP"
def v1alpha4.PortMappingProtocolSCTP : String := "SCTP"

/-- The names the resource schema allows for `propagation`, each with the backend value of the
same name. -/
def propagationEnum : List (String × String) :=
  [("None", v1alpha4.MountPropagationNone),
   ("HostToContainer", v1alpha4.MountPropagationHostToContainer),
   ("Bidirectional", v1alpha4.MountPropagationBidirectional)]

/-- The names the resource schema allows for `protocol`, each with the backend value of the same
name. -/
def protocolEnum : List (String × String) :=
  [("TCP", v1alpha4.PortMappingProtocolTCP),
   ("UDP", v1alpha4.PortMappingProtocolUDP),
   ("SCTP", v1alpha4.PortMappingProtocolSCTP)]

/-- A managed resource of another kind than `Cluster`. -/
def sampleOther : Managed := .other "ProviderConfigUsage"

/-- A connector whose usage tracking succeeds and whose provider is `sampleProvider`. -/
def sampleConnector : connector := { Track := fun _ => none, NewProvider := sampleProvider }

/-! ## Lemmas on the helpers -/

theorem mapGet_mapSet (m : List (String × String)) (k v : String) :
    mapGet (mapSet m k v) k = v := by
  induction m with
  | nil => simp [mapSet, mapGet]
  | cons p rest ih =>
    obtain ⟨k', v'⟩ := p
    by_cases hk : k' = k
    · simp [mapSet, mapGet, hk]
    · simp [mapSet, mapGet, hk, ih]

theorem mapSet_mapGet_self (m : List (String × String)) (k : String) (hne : mapGet m k ≠ "") :
    mapSet m k (mapGet m k) = m := by
  induction m with
  | nil => simp [mapGet] at hne
  | cons p rest ih =>
    obtain ⟨k', v'⟩ := p
    by_cases hk : k' = k
    · simp [mapSet, mapGet, hk]
    · simp only [mapGet, hk, if_false] at hne ⊢
      simp [mapSet, hk, ih hne]

theorem SetConditions_atProvider (cr : Cluster) (c : Condition) :
    (SetConditions cr c).Status.AtProvider = cr.Status.AtProvider := rfl

theorem SetConditions_objectMeta (cr : Cluster) (c : Condition) :
    (SetConditions cr c).ObjectMeta = cr.ObjectMeta := rfl

theorem SetConditions_spec (cr : Cluster) (c : Condition) :
    (SetConditions cr c).Spec = cr.Spec := rfl

theorem getClusterName_SetConditions (cr : Cluster) (c : Condition) :
    getClusterName (SetConditions cr c) = getClusterName cr := rfl

theorem containsName_iff (clusters : List String) (clusterName : String) :
    containsName clusters clusterName = true ↔ clusterName ∈ clusters := by
  induction clusters with
  | nil => simp [containsName]
  | cons c rest ih =>
    by_cases hc : c = clusterName
    · simp [containsName, hc]
    · have hc' : ¬ clusterName = c := fun h => hc h.symm
      simp [containsName, hc, hc', ih]

theorem observeNodes_eq (h : Host) (ns : List NodeHandle) (nodeObs : List NodeObservation)
    (allReady : Bool) (calls : List BackendCall) :
    observeNodes h ns nodeObs allReady calls =
      (nodeObs ++ ns.map (observeNode h), allReady && ns.all nodeResolved,
        calls ++ ns.flatMap nodeCalls) := by
  induction ns generalizing nodeObs allReady calls with
  | nil => simp [observeNodes]
  | cons n rest ih =>
    by_cases hn : nodeResolved n = true
    · have hn' := hn
      unfold nodeResolved at hn'
      simp [observeNodes, hn', ih, observeNode, hn, nodeCalls]
    · have hn' := hn
      unfold nodeResolved at hn'
      simp [observeNodes, hn', ih, observeNode, hn, nodeCalls]

theorem recordEndpoint_objectMeta (h : Host) (kubeconfig : String) (cr : Cluster) :
    (recordEndpoint h kubeconfig cr).ObjectMeta = cr.ObjectMeta := by
  unfold recordEndpoint
  split <;> rfl

theorem recordEndpoint_spec (h : Host) (kubeconfig : String) (cr : Cluster) :
    (recordEndpoint h kubeconfig cr).Spec = cr.Spec := by
  unfold recordEndpoint
  split <;> rfl

theorem recordEndpoint_conditions (h : Host) (kubeconfig : String) (cr : Cluster) :
    (recordEndpoint h kubeconfig cr).Status.Conditions = cr.Status.Conditions := by
  unfold recordEndpoint
  split <;> rfl

/-- A call of `Observe` on a `Cluster` returns no error and reports the resource as existing
exactly on the path where the listing, the kubeconfig fetch and the node listing succeed and the
cluster is listed; the resource after the call is then described field by field. -/
theorem Observe_exists (h : Host) (e : external) (cr : Cluster)
    (herr : (Observe h e (.cluster cr)).err = none)
    (hex : (Observe h e (.cluster cr)).val.ResourceExists = true) :
    e.provider.ListClusters.2 = none ∧
    getClusterName cr ∈ e.provider.ListClusters.1 ∧
    (e.provider.KubeConfig (getClusterName cr) false).2 = none ∧
    (e.provider.ListNodes (getClusterName cr)).2 = none ∧
    ∃ cr', (Observe h e (.cluster cr)).mg = .cluster cr' ∧
      cr'.Status.AtProvider.Nodes =
        (e.provider.ListNodes (getClusterName cr)).1.map (observeNode h) ∧
      cr'.Status.AtProvider.Ready =
        (decide ((e.provider.ListNodes (getClusterName cr)).1.length > 0) &&
          (e.provider.ListNodes (getClusterName cr)).1.all nodeResolved) ∧
      cr'.Status.AtProvider.APIServerEndpoint =
        (recordEndpoint h (e.provider.KubeConfig (getClusterName cr) false).1
          cr).Status.AtProvider.APIServerEndpoint ∧
      cr'.ObjectMeta = cr.ObjectMeta ∧ cr'.Spec = cr.Spec ∧
      (Observe h e (.cluster cr)).val =
        { ResourceExists := true, ResourceUpToDate := true,
          ConnectionDetails :=
            [("kubeconfig", (e.provider.KubeConfig (getClusterName cr) false).1)] } := by
  rcases hL : e.provider.ListClusters with ⟨clusters, _ | errL⟩
  swap
  · simp [Observe, hL] at herr
  by_cases hin : containsName clusters (getClusterName cr) = true
  swap
  · simp [Observe, hL, hin] at hex
  rcases hK : e.provider.KubeConfig (getClusterName cr) false with ⟨kubeconfig, _ | errK⟩
  swap
  · simp [Observe, hL, hin, hK] at herr
  rcases hN : e.provider.ListNodes (getClusterName cr) with ⟨nodes, _ | errN⟩
  swap
  · simp [Observe, hL, hin, hK, hN] at herr
  refine ⟨rfl, (containsName_iff _ _).1 hin, rfl, rfl, ?_⟩
  simp only [Observe, hL, hin, hK, hN, observeNodes_eq]
  by_cases hr : (decide (nodes.length > 0) && nodes.all nodeResolved) = true
  · simp [hr, SetConditions, recordEndpoint_objectMeta, recordEndpoint_spec]
  · simp [hr, SetConditions, recordEndpoint_objectMeta, recordEndpoint_spec]

/-- When the listing succeeds and names the cluster, and the kubeconfig fetch and the node
listing succeed, `Observe` returns no error and the observation of an existing, up-to-date
resource whose only connection detail is the kubeconfig. -/
theorem Observe_present (h : Host) (e : external) (cr : Cluster)
    (hL : e.provider.ListClusters.2 = none)
    (hin : getClusterName cr ∈ e.provider.ListClusters.1)
    (hK : (e.provider.KubeConfig (getClusterName cr) false).2 = none)
    (hN : (e.provider.ListNodes (getClusterName cr)).2 = none) :
    (Observe h e (.cluster cr)).err = none ∧
      (Observe h e (.cluster cr)).val =
        { ResourceExists := true, ResourceUpToDate := true,
          ConnectionDetails :=
            [("kubeconfig", (e.provider.KubeConfig (getClusterName cr) false).1)] } := by
  rcases hL' : e.provider.ListClusters with ⟨clusters, errL⟩
  rw [hL'] at hL hin
  simp only at hL hin
  subst hL
  have hin' := (containsName_iff _ _).2 hin
  rcases hK' : e.provider.KubeConfig (getClusterName cr) false with ⟨kubeconfig, errK⟩
  rw [hK'] at hK
  simp only at hK
  subst hK
  rcases hN' : e.provider.ListNodes (getClusterName cr) with ⟨nodes, errN⟩
  rw [hN'] at hN
  simp only at hN
  subst hN
  simp [Observe, hL', hin', hK', hN', observeNodes_eq]

theorem observeNode_running_iff (h : Host) (n : NodeHandle) :
    (observeNode h n).Status = "Running" ↔ nodeResolved n = true := by
  by_cases hn : nodeResolved n = true
  · simp [observeNode, hn]
  · simp [observeNode, hn]

theorem observeNode_unknown_iff (h : Host) (n : NodeHandle) :
    (observeNode h n).Status = "Unknown" ↔ nodeResolved n = false := by
  by_cases hn : nodeResolved n = true
  · simp [observeNode, hn]
  · simp [observeNode, hn]

theorem nodeResolved_iff (n : NodeHandle) :
    nodeResolved n = true ↔ (n.roleErr = none ∧ n.ipErr = none) := by
  simp [nodeResolved]

/-! ## Observe: readiness and node status -/

/-- C1: after a successful `Observe` of an existing cluster, one observation is recorded per
node the backend returned, and the recorded `Ready` flag is true if and only if the backend
returned at least one node and every recorded node has status `Running`; with zero nodes
`Ready` is false. -/
theorem observe_ready_iff_all_running (h : Host) (e : external) (cr : Cluster)
    (herr : (Observe h e (.cluster cr)).err = none)
    (hex : (Observe h e (.cluster cr)).val.ResourceExists = true) :
    ∃ cr', (Observe h e (.cluster cr)).mg = .cluster cr' ∧
      cr'.Status.AtProvider.Nodes.length =
        (e.provider.ListNodes (getClusterName cr)).1.length ∧
      (cr'.Status.AtProvider.Ready = true ↔
        (0 < (e.provider.ListNodes (getClusterName cr)).1.length ∧
          ∀ o ∈ cr'.Status.AtProvider.Nodes, o.Status = "Running")) ∧
      ((e.provider.ListNodes (getClusterName cr)).1 = [] →
        cr'.Status.AtProvider.Ready = false) := by
  obtain ⟨_, _, _, _, cr', hmg, hnodes, hready, _⟩ := Observe_exists h e cr herr hex
  refine ⟨cr', hmg, ?_, ?_, ?_⟩
  · simp [hnodes]
  · rw [hready, hnodes]
    simp [List.all_eq_true, observeNode_running_iff]
  · intro hnil
    rw [hready, hnil]
    rfl

theorem observe_ready_iff_all_running_witness :
    (Observe sampleHost sampleExternal (.cluster sampleCluster)).err = none ∧
    (Observe sampleHost sampleExternal (.cluster sampleCluster)).val.ResourceExists = true ∧
    ∃ cr', (Observe sampleHost sampleExternal (.cluster sampleCluster)).mg = .cluster cr' ∧
      cr'.Status.AtProvider.Nodes.length =
        (sampleExternal.provider.ListNodes (getClusterName sampleCluster)).1.length ∧
      (cr'.Status.AtProvider.Ready = true ↔
        (0 < (sampleExternal.provider.ListNodes (getClusterName sampleCluster)).1.length ∧
          ∀ o ∈ cr'.Status.AtProvider.Nodes, o.Status = "Running")) ∧
      ((sampleExternal.provider.ListNodes (getClusterName sampleCluster)).1 = [] →
        cr'.Status.AtProvider.Ready = false) :=
  ⟨by decide, by decide,
    observe_ready_iff_all_running sampleHost sampleExternal sampleCluster (by decide) (by decide)⟩

/-- C2: after a successful `Observe` of an existing cluster, the observation recorded for each
node the backend returned (same position, same name) has status `Running` if and only if both
the role query and the IP query returned no error, and `Unknown` otherwise; the status is one of
these two values, and the statuses are the same whatever the image lookup answers. -/
theorem observe_node_status (h : Host) (e : external) (cr : Cluster)
    (herr : (Observe h e (.cluster cr)).err = none)
    (hex : (Observe h e (.cluster cr)).val.ResourceExists = true) :
    ∃ cr', (Observe h e (.cluster cr)).mg = .cluster cr' ∧
      cr'.Status.AtProvider.Nodes.length =
        (e.provider.ListNodes (getClusterName cr)).1.length ∧
      (∀ (i : Nat) (n : NodeHandle), (e.provider.ListNodes (getClusterName cr)).1[i]? = some n →
        ∃ o : NodeObservation, cr'.Status.AtProvider.Nodes[i]? = some o ∧ o.Name = n.name ∧
          (o.Status = "Running" ↔ (n.roleErr = none ∧ n.ipErr = none)) ∧
          (¬ (n.roleErr = none ∧ n.ipErr = none) → o.Status = "Unknown") ∧
          (o.Status = "Running" ∨ o.Status = "Unknown")) ∧
      (∀ d : String → String × Option String,
        ∃ cr2, (Observe { h with dockerInspect := d } e (.cluster cr)).mg = .cluster cr2 ∧
          cr2.Status.AtProvider.Nodes.map (fun o => o.Status) =
            cr'.Status.AtProvider.Nodes.map (fun o => o.Status)) := by
  obtain ⟨hL, hin, hK, hN, cr', hmg, hnodes, _⟩ := Observe_exists h e cr herr hex
  refine ⟨cr', hmg, by simp [hnodes], ?_, ?_⟩
  · intro i n hi
    refine ⟨observeNode h n, by simp [hnodes, List.getElem?_map, hi], rfl, ?_, ?_, ?_⟩
    · rw [observeNode_running_iff, nodeResolved_iff]
    · intro hno
      rw [observeNode_unknown_iff]
      rw [← nodeResolved_iff] at hno
      simpa using hno
    · by_cases hr : nodeResolved n = true
      · exact Or.inl ((observeNode_running_iff h n).2 hr)
      · exact Or.inr ((observeNode_unknown_iff h n).2 (by simpa using hr))
  · intro d
    obtain ⟨herr2, hval2⟩ := Observe_present { h with dockerInspect := d } e cr hL hin hK hN
    obtain ⟨_, _, _, _, cr2, hmg2, hnodes2, _⟩ :=
      Observe_exists { h with dockerInspect := d } e cr herr2 (by rw [hval2])
    refine ⟨cr2, hmg2, ?_⟩
    rw [hnodes2, hnodes]
    simp [List.map_map, Function.comp_def, observeNode]

theorem observe_node_status_witness :
    (Observe sampleHost sampleExternal (.cluster sampleLab)).err = none ∧
    (Observe sampleHost sampleExternal (.cluster sampleLab)).val.ResourceExists = true ∧
    ∃ cr', (Observe sampleHost sampleExternal (.cluster sampleLab)).mg = .cluster cr' ∧
      cr'.Status.AtProvider.Nodes.length =
        (sampleExternal.provider.ListNodes (getClusterName sampleLab)).1.length ∧
      (∀ (i : Nat) (n : NodeHandle), (sampleExternal.provider.ListNodes (getClusterName sampleLab)).1[i]? = some n →
        ∃ o : NodeObservation, cr'.Status.AtProvider.Nodes[i]? = some o ∧ o.Name = n.name ∧
          (o.Status = "Running" ↔ (n.roleErr = none ∧ n.ipErr = none)) ∧
          (¬ (n.roleErr = none ∧ n.ipErr = none) → o.Status = "Unknown") ∧
          (o.Status = "Running" ∨ o.Status = "Unknown")) ∧
      (∀ d : String → String × Option String,
        ∃ cr2, (Observe { sampleHost with dockerInspect := d } sampleExternal
            (.cluster sampleLab)).mg = .cluster cr2 ∧
          cr2.Status.AtProvider.Nodes.map (fun o => o.Status) =
            cr'.Status.AtProvider.Nodes.map (fun o => o.Status)) :=
  ⟨by decide, by decide,
    observe_node_status sampleHost sampleExternal sampleLab (by decide) (by decide)⟩

/-! ## The projection `buildKindConfig` -/

theorem foldl_nodes (nodes : List clusterv1alpha1.Node) (cfg : v1alpha4.Cluster) :
    nodes.foldl (fun cfg node => { cfg with Nodes := cfg.Nodes ++ [buildNode node] }) cfg =
      { cfg with Nodes := cfg.Nodes ++ nodes.map buildNode } := by
  induction nodes generalizing cfg with
  | nil => simp
  | cons node rest ih => simp [ih]

theorem buildKindConfig_nodes (params : ClusterParameters) :
    (buildKindConfig params).Nodes = params.Nodes.map buildNode := by
  simp only [buildKindConfig, foldl_nodes]
  cases params.Networking <;> cases params.KubeProxyMode <;> simp <;> split <;> rfl

theorem buildKindConfig_networking (params : ClusterParameters) :
    (buildKindConfig params).Networking =
      let net : v1alpha4.Networking := match params.Networking with
        | some net => buildNetworking net {}
        | none => {}
      match params.KubeProxyMode with
      | some mode => if networkingModeUnset params then { net with KubeProxyMode := mode } else net
      | none => net := by
  simp only [buildKindConfig, foldl_nodes]
  cases params.Networking <;> cases params.KubeProxyMode <;> simp <;> split <;> rfl

theorem buildNetworking_eq (net : clusterv1alpha1.Networking) (cfg : v1alpha4.Networking) :
    buildNetworking net cfg =
      { IPFamily := net.IPFamily.getD cfg.IPFamily
        APIServerPort := net.APIServerPort.getD cfg.APIServerPort
        APIServerAddress := net.APIServerAddress.getD cfg.APIServerAddress
        PodSubnet := net.PodSubnet.getD cfg.PodSubnet
        ServiceSubnet := net.ServiceSubnet.getD cfg.ServiceSubnet
        DisableDefaultCNI := net.DisableDefaultCNI.getD cfg.DisableDefaultCNI
        KubeProxyMode := net.KubeProxyMode.getD cfg.KubeProxyMode } := by
  obtain ⟨f1, f2, f3, f4, f5, f6, f7⟩ := net
  cases f1 <;> cases f2 <;> cases f3 <;> cases f4 <;> cases f5 <;> cases f6 <;> cases f7 <;> rfl

/-- C3 (as stated) fails: for the empty desired spec, whose `nodes` sequence is empty, the
configuration produced by `buildKindConfig` is not a configuration of exactly one control-plane
node. -/
theorem buildKindConfig_default_node_counterexample :
    ({} : ClusterParameters).Nodes = [] ∧ (buildKindConfig {}).Nodes = [] ∧
    ¬ ∃ n : v1alpha4.Node, (buildKindConfig {}).Nodes = [n] ∧ n.Role = v1alpha4.ControlPlaneRole := by
  have h0 : (buildKindConfig {}).Nodes = [] := by decide
  refine ⟨rfl, h0, ?_⟩
  rintro ⟨n, hn, _⟩
  rw [h0] at hn
  cases hn

/-- C3 (amended): for every desired spec whose `nodes` sequence is empty, the configuration
produced by `buildKindConfig` has an empty node list: the projection adds no default node. -/
theorem buildKindConfig_empty_nodes (params : ClusterParameters) (hn : params.Nodes = []) :
    (buildKindConfig params).Nodes = [] := by
  rw [buildKindConfig_nodes, hn]
  rfl

theorem buildKindConfig_empty_nodes_witness :
    sampleCluster.Spec.ForProvider.Nodes = [] ∧
    (buildKindConfig sampleCluster.Spec.ForProvider).Nodes = [] :=
  ⟨by decide, buildKindConfig_empty_nodes sampleCluster.Spec.ForProvider (by decide)⟩

/-- C4: the networking `kubeProxyMode` of the configuration produced by `buildKindConfig` is the
networking block's `kubeProxyMode` when the block is present and sets it (whatever the top-level
value), otherwise the top-level `kubeProxyMode` when that is set (also when the networking block
is absent), otherwise the empty string. -/
theorem buildKindConfig_kubeProxyMode (params : ClusterParameters) :
    (buildKindConfig params).Networking.KubeProxyMode =
      match params.Networking.bind (fun net => net.KubeProxyMode) with
      | some mode => mode
      | none =>
        match params.KubeProxyMode with
        | some mode => mode
        | none => "" := by
  rw [buildKindConfig_networking]
  unfold networkingModeUnset
  rcases hnet : params.Networking with _ | net
  · cases params.KubeProxyMode <;> simp
  · rcases hm : net.KubeProxyMode with _ | m
    · cases params.KubeProxyMode <;> simp [buildNetworking_eq, hm]
    · cases params.KubeProxyMode <;> simp [buildNetworking_eq, hm]

/-! ## Create, Observe, Update: results and backend calls -/

/-- C5: when `waitForReady` is set to a string that `time.ParseDuration` rejects, `Create`
returns the cannot-parse-waitForReady error wrapping the parse error, with the zero result, and
makes no backend call (neither the backend create nor the kubeconfig fetch). -/
theorem create_unparsable_wait_fails_fast (h : Host) (e : external) (cr : Cluster)
    (w perr : String) (hw : cr.Spec.ForProvider.WaitForReady = some w)
    (hp : (h.ParseDuration w).2 = some perr) :
    (Create h e (.cluster cr)).err = some (Wrap perr errParseWait) ∧
    (Create h e (.cluster cr)).val = {} ∧
    (Create h e (.cluster cr)).calls = [] := by
  rcases hp' : h.ParseDuration w with ⟨d, perr'⟩
  rw [hp'] at hp
  simp only at hp
  subst hp
  have hw' : (SetExternalName (SetConditions cr Creating)
      (getClusterName (SetConditions cr Creating))).Spec.ForProvider.WaitForReady = some w := hw
  simp [Create, hw', hp']

theorem create_unparsable_wait_fails_fast_witness :
    sampleBadWait.Spec.ForProvider.WaitForReady = some "not-a-duration" ∧
    (sampleHost.ParseDuration "not-a-duration").2 =
      some "time: invalid duration not-a-duration" ∧
    (Create sampleHost sampleExternal (.cluster sampleBadWait)).err =
      some (Wrap "time: invalid duration not-a-duration" errParseWait) ∧
    (Create sampleHost sampleExternal (.cluster sampleBadWait)).val = {} ∧
    (Create sampleHost sampleExternal (.cluster sampleBadWait)).calls = [] :=
  ⟨by decide, by decide,
    create_unparsable_wait_fails_fast sampleHost sampleExternal sampleBadWait
      "not-a-duration" "time: invalid duration not-a-duration" (by decide) (by decide)⟩

/-- C6: when the backend listing succeeds and does not contain the resolved external name,
`Observe` returns `ResourceExists = false` with no error and no connection details, its only
backend call is the listing, and the resource is left as it was. -/
theorem observe_absent (h : Host) (e : external) (cr : Cluster)
    (hL : e.provider.ListClusters.2 = none)
    (hnot : getClusterName cr ∉ e.provider.ListClusters.1) :
    (Observe h e (.cluster cr)).val.ResourceExists = false ∧
    (Observe h e (.cluster cr)).err = none ∧
    (Observe h e (.cluster cr)).val.ConnectionDetails = [] ∧
    (Observe h e (.cluster cr)).calls = [.List] ∧
    (Observe h e (.cluster cr)).mg = .cluster cr := by
  rcases hL' : e.provider.ListClusters with ⟨clusters, errL⟩
  rw [hL'] at hL hnot
  simp only at hL hnot
  subst hL
  have hc : containsName clusters (getClusterName cr) = false := by
    rw [← Bool.not_eq_true, containsName_iff]
    exact hnot
  simp [Observe, hL', hc]

theorem observe_absent_witness :
    sampleExternal.provider.ListClusters.2 = none ∧
    getClusterName sampleAbsent ∉ sampleExternal.provider.ListClusters.1 ∧
    (Observe sampleHost sampleExternal (.cluster sampleAbsent)).val.ResourceExists = false ∧
    (Observe sampleHost sampleExternal (.cluster sampleAbsent)).err = none ∧
    (Observe sampleHost sampleExternal (.cluster sampleAbsent)).val.ConnectionDetails = [] ∧
    (Observe sampleHost sampleExternal (.cluster sampleAbsent)).calls = [.List] ∧
    (Observe sampleHost sampleExternal (.cluster sampleAbsent)).mg = .cluster sampleAbsent :=
  ⟨by decide, by decide,
    observe_absent sampleHost sampleExternal sampleAbsent (by decide) (by decide)⟩

/-- C7: when the resolved external name is in the backend listing and the kubeconfig fetch and
the node listing succeed, `Observe` returns no error, `ResourceExists = true` and
`ResourceUpToDate = true` (whatever the desired spec and the nodes), and connection details of
exactly one entry, with key `kubeconfig` and the kubeconfig returned by the backend as value. -/
theorem observe_present_up_to_date (h : Host) (e : external) (cr : Cluster)
    (hL : e.provider.ListClusters.2 = none)
    (hin : getClusterName cr ∈ e.provider.ListClusters.1)
    (hK : (e.provider.KubeConfig (getClusterName cr) false).2 = none)
    (hN : (e.provider.ListNodes (getClusterName cr)).2 = none) :
    (Observe h e (.cluster cr)).err = none ∧
    (Observe h e (.cluster cr)).val.ResourceExists = true ∧
    (Observe h e (.cluster cr)).val.ResourceUpToDate = true ∧
    (Observe h e (.cluster cr)).val.ConnectionDetails =
      [("kubeconfig", (e.provider.KubeConfig (getClusterName cr) false).1)] := by
  obtain ⟨herr, hval⟩ := Observe_present h e cr hL hin hK hN
  rw [hval]
  exact ⟨herr, rfl, rfl, rfl⟩

theorem observe_present_up_to_date_witness :
    sampleExternal.provider.ListClusters.2 = none ∧
    getClusterName sampleLab ∈ sampleExternal.provider.ListClusters.1 ∧
    (sampleExternal.provider.KubeConfig (getClusterName sampleLab) false).2 = none ∧
    (sampleExternal.provider.ListNodes (getClusterName sampleLab)).2 = none ∧
    (Observe sampleHost sampleExternal (.cluster sampleLab)).err = none ∧
    (Observe sampleHost sampleExternal (.cluster sampleLab)).val.ResourceExists = true ∧
    (Observe sampleHost sampleExternal (.cluster sampleLab)).val.ResourceUpToDate = true ∧
    (Observe sampleHost sampleExternal (.cluster sampleLab)).val.ConnectionDetails =
      [("kubeconfig", (sampleExternal.provider.KubeConfig (getClusterName sampleLab) false).1)] :=
  ⟨by decide, by decide, by decide, by decide,
    observe_present_up_to_date sampleHost sampleExternal sampleLab
      (by decide) (by decide) (by decide) (by decide)⟩

/-- C8: for every resource, whatever its desired spec, `Update` returns no error and the empty
result, makes no backend call, and leaves the resource as it was. -/
theorem update_is_noop (e : external) (mg : Managed) :
    (Update e mg).err = none ∧
    (Update e mg).val = {} ∧
    (Update e mg).calls = [] ∧
    (Update e mg).mg = mg :=
  ⟨rfl, rfl, rfl, rfl⟩

/-! ## The external name -/

theorem GetExternalName_SetExternalName (cr : Cluster) (name : String) :
    GetExternalName (SetExternalName cr name) = name := by
  simp [GetExternalName, SetExternalName, mapGet_mapSet]

theorem getClusterName_SetExternalName (cr : Cluster) :
    getClusterName (SetExternalName cr (getClusterName cr)) = getClusterName cr := by
  unfold getClusterName
  rw [GetExternalName_SetExternalName]
  by_cases hx : GetExternalName cr = ""
  · simp only [hx, ne_eq, not_true_eq_false, if_false]
    by_cases hn : cr.ObjectMeta.Name = ""
    · simp [hn, SetExternalName]
    · simp [hn]
  · simp [hx]

theorem SetExternalName_self (cr : Cluster) (hx : GetExternalName cr ≠ "") :
    SetExternalName cr (getClusterName cr) = cr := by
  have hname : getClusterName cr = GetExternalName cr := by simp [getClusterName, hx]
  rw [hname]
  unfold SetExternalName
  unfold GetExternalName at hx ⊢
  rw [mapSet_mapGet_self _ _ hx]

theorem Create_mg (h : Host) (e : external) (cr : Cluster) :
    (Create h e (.cluster cr)).mg =
      .cluster (SetExternalName (SetConditions cr Creating) (getClusterName cr)) := by
  simp only [Create, getClusterName_SetConditions]
  split
  · rfl
  · split
    · rfl
    · split <;> rfl

theorem Create_calls (h : Host) (e : external) (cr : Cluster) (c : BackendCall)
    (hc : c ∈ (Create h e (.cluster cr)).calls) :
    c.clusterName = some (getClusterName cr) := by
  simp only [Create, getClusterName_SetConditions] at hc
  split at hc
  · simp at hc
  · split at hc
    · simp at hc
      subst hc
      rfl
    · split at hc <;> simp at hc <;> rcases hc with hc | hc <;> subst hc <;> rfl

theorem nodeCalls_clusterName (ns : List NodeHandle) (c : BackendCall)
    (hc : c ∈ ns.flatMap nodeCalls) : c.clusterName = none := by
  simp only [List.mem_flatMap, nodeCalls] at hc
  obtain ⟨n, _, hc⟩ := hc
  simp at hc
  rcases hc with hc | hc | hc <;> subst hc <;> rfl

theorem Observe_calls (h : Host) (e : external) (cr : Cluster) (c : BackendCall)
    (hc : c ∈ (Observe h e (.cluster cr)).calls) (name : String)
    (hname : c.clusterName = some name) : name = getClusterName cr := by
  rcases hL : e.provider.ListClusters with ⟨clusters, _ | errL⟩
  swap
  · simp [Observe, hL] at hc
    subst hc
    simp [BackendCall.clusterName] at hname
  by_cases hin : containsName clusters (getClusterName cr) = true
  swap
  · simp [Observe, hL, hin] at hc
    subst hc
    simp [BackendCall.clusterName] at hname
  rcases hK : e.provider.KubeConfig (getClusterName cr) false with ⟨kubeconfig, _ | errK⟩
  swap
  · simp [Observe, hL, hin, hK] at hc
    rcases hc with hc | hc <;> subst hc <;> simp [BackendCall.clusterName] at hname
    exact hname.symm
  rcases hN : e.provider.ListNodes (getClusterName cr) with ⟨nodes, _ | errN⟩
  swap
  · simp [Observe, hL, hin, hK, hN] at hc
    rcases hc with hc | hc | hc <;> subst hc <;> simp [BackendCall.clusterName] at hname
    · exact hname.symm
    · exact hname.symm
  simp only [Observe, hL, hin, hK, hN, observeNodes_eq] at hc
  simp only [Bool.not_true, Bool.false_eq_true, if_false, List.mem_append, List.mem_cons,
    List.mem_singleton, List.not_mem_nil, or_false] at hc
  rcases hc with (hc | hc | hc) | hc
  · subst hc
    simp [BackendCall.clusterName] at hname
  · subst hc
    simp [BackendCall.clusterName] at hname
    exact hname.symm
  · subst hc
    simp [BackendCall.clusterName] at hname
    exact hname.symm
  · rw [nodeCalls_clusterName nodes c hc] at hname
    cases hname

theorem Delete_calls (e : external) (cr : Cluster) :
    (Delete e (.cluster cr)).calls = [.Delete (getClusterName cr) DevNull] := by
  simp only [Delete, getClusterName_SetConditions]
  split <;> rfl

/-- C9: the backend cluster name `Create` uses is the existing external name when one is set,
and then `Create` leaves the metadata unchanged, and the resource name otherwise; every provider
call of `Create` is made for that name; after `Create` the external name is that name, and
`getClusterName`, hence every provider call of a later `Observe` or `Delete`, resolves to it;
the name does not depend on the desired spec or on the status of the resource. -/
theorem create_external_name_stable (h : Host) (e : external) (cr : Cluster) :
    (GetExternalName cr ≠ "" → getClusterName cr = GetExternalName cr) ∧
    (GetExternalName cr = "" → getClusterName cr = cr.ObjectMeta.Name) ∧
    (∀ c ∈ (Create h e (.cluster cr)).calls, c.clusterName = some (getClusterName cr)) ∧
    (∀ (spec : clusterv1alpha1.ClusterSpec) (status : clusterv1alpha1.ClusterStatus),
      getClusterName { cr with Spec := spec, Status := status } = getClusterName cr) ∧
    ∃ cr', (Create h e (.cluster cr)).mg = .cluster cr' ∧
      GetExternalName cr' = getClusterName cr ∧
      (GetExternalName cr ≠ "" → cr'.ObjectMeta = cr.ObjectMeta) ∧
      getClusterName cr' = getClusterName cr ∧
      (∀ (spec : clusterv1alpha1.ClusterSpec) (status : clusterv1alpha1.ClusterStatus),
        getClusterName { cr' with Spec := spec, Status := status } = getClusterName cr) ∧
      (∀ (h2 : Host) (e2 : external) (c : BackendCall) (name : String),
        c ∈ (Observe h2 e2 (.cluster cr')).calls → c.clusterName = some name →
          name = getClusterName cr) ∧
      (∀ e2 : external,
        (Delete e2 (.cluster cr')).calls = [.Delete (getClusterName cr) DevNull]) := by
  have hpost : getClusterName (SetExternalName (SetConditions cr Creating) (getClusterName cr)) =
      getClusterName cr := by
    have := getClusterName_SetExternalName (SetConditions cr Creating)
    rwa [getClusterName_SetConditions] at this
  refine ⟨fun hx => by simp [getClusterName, hx], fun hx => by simp [getClusterName, hx],
    fun c hc => Create_calls h e cr c hc, fun _ _ => rfl,
    SetExternalName (SetConditions cr Creating) (getClusterName cr), Create_mg h e cr,
    GetExternalName_SetExternalName _ _, ?_, hpost, fun _ _ => hpost, ?_, ?_⟩
  · intro hx
    have hself := SetExternalName_self (SetConditions cr Creating) hx
    rw [getClusterName_SetConditions] at hself
    rw [hself]
    rfl
  · intro h2 e2 c name hc hname
    rw [← hpost]
    exact Observe_calls h2 e2 _ c hc name hname
  · intro e2
    rw [Delete_calls, hpost]

theorem create_external_name_stable_witness :
    GetExternalName sampleLab = "lab" ∧ sampleLab.ObjectMeta.Name = "lab-resource" ∧
    getClusterName sampleLab = "lab" ∧
    (∀ c ∈ (Create sampleHost sampleExternal (.cluster sampleLab)).calls,
      c.clusterName = some "lab") ∧
    ∃ cr', (Create sampleHost sampleExternal (.cluster sampleLab)).mg = .cluster cr' ∧
      cr'.ObjectMeta = sampleLab.ObjectMeta ∧ getClusterName cr' = "lab" := by
  have hx : GetExternalName sampleLab = "lab" := by decide
  have hne : GetExternalName sampleLab ≠ "" := by decide
  obtain ⟨hset, _, hcalls, _, cr', hmg, _, hmeta, hpost, _⟩ :=
    create_external_name_stable sampleHost sampleExternal sampleLab
  have hname : getClusterName sampleLab = "lab" := (hset hne).trans hx
  exact ⟨hx, by decide, hname, fun c hc => hname ▸ hcalls c hc, cr', hmg, hmeta hne,
    hpost.trans hname⟩

/-! ## Observe and the prior observed state -/

/-- C10 (as stated) fails: `sampleLab` and `sampleLabStale` differ only in their prior observed
state, `Observe` succeeds on both for the same backend answers (the kubeconfig of `lab` does not
load, so it yields no server endpoint), and the observed states after the call differ: the
endpoint recorded before the call survives. -/
theorem observe_overwrite_counterexample :
    sampleLabStale = withObserved sampleLab sampleLabStale.Status.AtProvider ∧
    (Observe sampleHost sampleExternal (.cluster sampleLab)).err = none ∧
    (Observe sampleHost sampleExternal (.cluster sampleLab)).val.ResourceExists = true ∧
    (Observe sampleHost sampleExternal (.cluster sampleLabStale)).err = none ∧
    (Observe sampleHost sampleExternal (.cluster sampleLabStale)).val.ResourceExists = true ∧
    ∃ cr1 cr2 : Cluster,
      (Observe sampleHost sampleExternal (.cluster sampleLab)).mg = .cluster cr1 ∧
      (Observe sampleHost sampleExternal (.cluster sampleLabStale)).mg = .cluster cr2 ∧
      cr1.Status.AtProvider.APIServerEndpoint = none ∧
      cr2.Status.AtProvider.APIServerEndpoint = some "https://127.0.0.1:40000" ∧
      cr1.Status.AtProvider ≠ cr2.Status.AtProvider := by
  refine ⟨by decide, by decide, by decide, by decide, by decide, ?_⟩
  obtain ⟨_, _, _, _, cr1, hmg1, _, _, hend1, _⟩ :=
    Observe_exists sampleHost sampleExternal sampleLab (by decide) (by decide)
  obtain ⟨_, _, _, _, cr2, hmg2, _, _, hend2, _⟩ :=
    Observe_exists sampleHost sampleExternal sampleLabStale (by decide) (by decide)
  have h1 : cr1.Status.AtProvider.APIServerEndpoint = none := by rw [hend1]; decide
  have h2 : cr2.Status.AtProvider.APIServerEndpoint = some "https://127.0.0.1:40000" := by
    rw [hend2]; decide
  refine ⟨cr1, cr2, hmg1, hmg2, h1, h2, ?_⟩
  intro heq
  rw [heq, h2] at h1
  cases h1

/-- C10 (amended): for two resources that differ only in their prior observed state and the same
backend answers on which `Observe` succeeds for an existing cluster, `Observe` succeeds on both
with the same result, the `Ready` flag and the node observations after the call are identical,
and whenever the fetched kubeconfig loads and yields a server endpoint the whole observed state
after the call is identical, with that endpoint recorded. -/
theorem observe_overwrites_observed_state (h : Host) (e : external) (cr : Cluster)
    (prior1 prior2 : clusterv1alpha1.ClusterObservation)
    (herr : (Observe h e (.cluster (withObserved cr prior1))).err = none)
    (hex : (Observe h e (.cluster (withObserved cr prior1))).val.ResourceExists = true) :
    (Observe h e (.cluster (withObserved cr prior2))).err = none ∧
    (Observe h e (.cluster (withObserved cr prior2))).val =
      (Observe h e (.cluster (withObserved cr prior1))).val ∧
    ∃ cr1 cr2 : Cluster,
      (Observe h e (.cluster (withObserved cr prior1))).mg = .cluster cr1 ∧
      (Observe h e (.cluster (withObserved cr prior2))).mg = .cluster cr2 ∧
      cr2.Status.AtProvider.Ready = cr1.Status.AtProvider.Ready ∧
      cr2.Status.AtProvider.Nodes = cr1.Status.AtProvider.Nodes ∧
      (∀ (endpoint : String) (rest : List String),
        h.clientcmdLoad (e.provider.KubeConfig (getClusterName cr) false).1 =
            some (endpoint :: rest) →
          cr1.Status.AtProvider.APIServerEndpoint = some endpoint ∧
          cr2.Status.AtProvider = cr1.Status.AtProvider) := by
  have hn1 : getClusterName (withObserved cr prior1) = getClusterName cr := rfl
  have hn2 : getClusterName (withObserved cr prior2) = getClusterName cr := rfl
  obtain ⟨hL, hin, hK, hN, cr1, hmg1, hnodes1, hready1, hend1, _, _, hval1⟩ :=
    Observe_exists h e _ herr hex
  obtain ⟨herr2, hval2⟩ := Observe_present h e (withObserved cr prior2) hL hin hK hN
  obtain ⟨_, _, _, _, cr2, hmg2, hnodes2, hready2, hend2, _⟩ :=
    Observe_exists h e _ herr2 (by rw [hval2])
  rw [hn1] at hnodes1 hready1 hend1 hval1
  rw [hn2] at hnodes2 hready2 hend2 hval2
  refine ⟨herr2, by rw [hval1, hval2], cr1, cr2, hmg1, hmg2, by rw [hready1, hready2],
    by rw [hnodes1, hnodes2], ?_⟩
  intro endpoint rest hload
  have he1 : cr1.Status.AtProvider.APIServerEndpoint = some endpoint := by
    rw [hend1]; simp [recordEndpoint, hload]
  have he2 : cr2.Status.AtProvider.APIServerEndpoint = some endpoint := by
    rw [hend2]; simp [recordEndpoint, hload]
  refine ⟨he1, ?_⟩
  have hr : cr2.Status.AtProvider.Ready = cr1.Status.AtProvider.Ready := by
    rw [hready1, hready2]
  have hnn : cr2.Status.AtProvider.Nodes = cr1.Status.AtProvider.Nodes := by
    rw [hnodes1, hnodes2]
  cases hc1 : cr1.Status.AtProvider
  cases hc2 : cr2.Status.AtProvider
  simp only [hc1, hc2] at hr hnn he1 he2
  simp [hr, hnn, he1, he2]

theorem observe_overwrites_observed_state_witness :
    sampleHost.clientcmdLoad
        (sampleExternal.provider.KubeConfig (getClusterName sampleCluster) false).1 =
      some ["https://127.0.0.1:6443"] ∧
    (Observe sampleHost sampleExternal
      (.cluster (withObserved sampleCluster {}))).err = none ∧
    (Observe sampleHost sampleExternal
      (.cluster (withObserved sampleCluster {}))).val.ResourceExists = true ∧
    (Observe sampleHost sampleExternal
      (.cluster (withObserved sampleCluster sampleLabStale.Status.AtProvider))).err = none ∧
    (Observe sampleHost sampleExternal
        (.cluster (withObserved sampleCluster sampleLabStale.Status.AtProvider))).val =
      (Observe sampleHost sampleExternal (.cluster (withObserved sampleCluster {}))).val ∧
    ∃ cr1 cr2 : Cluster,
      (Observe sampleHost sampleExternal
        (.cluster (withObserved sampleCluster {}))).mg = .cluster cr1 ∧
      (Observe sampleHost sampleExternal
        (.cluster (withObserved sampleCluster sampleLabStale.Status.AtProvider))).mg =
          .cluster cr2 ∧
      cr2.Status.AtProvider.Ready = cr1.Status.AtProvider.Ready ∧
      cr2.Status.AtProvider.Nodes = cr1.Status.AtProvider.Nodes ∧
      (∀ (endpoint : String) (rest : List String),
        sampleHost.clientcmdLoad
            (sampleExternal.provider.KubeConfig (getClusterName sampleCluster) false).1 =
            some (endpoint :: rest) →
          cr1.Status.AtProvider.APIServerEndpoint = some endpoint ∧
          cr2.Status.AtProvider = cr1.Status.AtProvider) :=
  ⟨by decide, by decide, by decide,
    observe_overwrites_observed_state sampleHost sampleExternal sampleCluster {}
      sampleLabStale.Status.AtProvider (by decide) (by decide)⟩

/-! ## The projection of the nodes -/

theorem foldl_mounts (ms : List clusterv1alpha1.Mount) (n : v1alpha4.Node) :
    ms.foldl (fun n m => { n with ExtraMounts := n.ExtraMounts ++ [buildMount m] }) n =
      { n with ExtraMounts := n.ExtraMounts ++ ms.map buildMount } := by
  induction ms generalizing n with
  | nil => simp
  | cons m rest ih => simp [ih]

theorem foldl_portMappings (pms : List clusterv1alpha1.PortMapping) (n : v1alpha4.Node) :
    pms.foldl
        (fun n pm => { n with ExtraPortMappings := n.ExtraPortMappings ++ [buildPortMapping pm] })
        n =
      { n with ExtraPortMappings := n.ExtraPortMappings ++ pms.map buildPortMapping } := by
  induction pms generalizing n with
  | nil => simp
  | cons pm rest ih => simp [ih]

theorem buildNode_eq (node : clusterv1alpha1.Node) :
    buildNode node =
      { Role := node.Role
        Image := node.Image.getD ""
        Labels := node.Labels
        ExtraMounts := node.ExtraMounts.map buildMount
        ExtraPortMappings := node.ExtraPortMappings.map buildPortMapping
        KubeadmConfigPatches := node.KubeadmConfigPatches } := by
  simp only [buildNode, foldl_mounts, foldl_portMappings]
  cases node.Image <;> simp

theorem buildMount_eq (m : clusterv1alpha1.Mount) :
    buildMount m =
      { ContainerPath := m.ContainerPath
        HostPath := m.HostPath
        Readonly := m.Readonly.getD false
        SelinuxRelabel := m.SelinuxRelabel.getD false
        Propagation := m.Propagation.getD "" } := by
  obtain ⟨f1, f2, f3, f4, f5⟩ := m
  cases f3 <;> cases f4 <;> cases f5 <;> rfl

theorem buildPortMapping_eq (pm : clusterv1alpha1.PortMapping) :
    buildPortMapping pm =
      { ContainerPort := pm.ContainerPort
        HostPort := pm.HostPort
        ListenAddress := pm.ListenAddress.getD ""
        Protocol := pm.Protocol.getD "" } := by
  obtain ⟨f1, f2, f3, f4⟩ := pm
  cases f3 <;> cases f4 <;> rfl

theorem buildKindConfig_node_at (params : ClusterParameters) (i : Nat)
    (node : clusterv1alpha1.Node) (hi : params.Nodes[i]? = some node) :
    (buildKindConfig params).Nodes[i]? = some (buildNode node) := by
  rw [buildKindConfig_nodes, List.getElem?_map, hi]
  rfl

theorem buildKindConfig_containerd (params : ClusterParameters) :
    (buildKindConfig params).ContainerdConfigPatches = params.ContainerdConfigPatches := by
  simp only [buildKindConfig, foldl_nodes]

/-- C11 (as stated) fails: the first node of `sampleParams` has no role (the empty string), and
the corresponding node of the configuration produced by `buildKindConfig` has the empty role,
not the control-plane role. -/
theorem buildKindConfig_missing_role_counterexample :
    (sampleParams.Nodes[0]?).map (fun node => node.Role) = some "" ∧
    ((buildKindConfig sampleParams).Nodes[0]?).map (fun n => n.Role) = some "" ∧
    ((buildKindConfig sampleParams).Nodes[0]?).map (fun n => n.Role) ≠
      some v1alpha4.ControlPlaneRole := by
  decide

/-- C11 (amended): for every desired spec and every node in it whose `role` is missing (the
empty string), the corresponding node in the configuration produced by `buildKindConfig` has the
empty role: the role is copied as it is and no default is applied by the projection. -/
theorem buildKindConfig_missing_role (params : ClusterParameters) (i : Nat)
    (node : clusterv1alpha1.Node) (hi : params.Nodes[i]? = some node) (hrole : node.Role = "") :
    ∃ n : v1alpha4.Node, (buildKindConfig params).Nodes[i]? = some n ∧ n.Role = "" ∧
      n.Role = node.Role := by
  refine ⟨buildNode node, buildKindConfig_node_at params i node hi, ?_, ?_⟩
  · rw [buildNode_eq]
    exact hrole
  · rw [buildNode_eq]

theorem buildKindConfig_missing_role_witness :
    sampleParams.Nodes[0]? = some { Role := "" } ∧
    ∃ n : v1alpha4.Node, (buildKindConfig sampleParams).Nodes[0]? = some n ∧ n.Role = "" ∧
      n.Role = ({ Role := "" } : clusterv1alpha1.Node).Role :=
  ⟨by decide, buildKindConfig_missing_role sampleParams 0 { Role := "" } (by decide) (by decide)⟩

/-- C12: the node list of the configuration produced by `buildKindConfig` has the length of the
input `nodes`, and for every index the projected node is the projection of the input node at
that index: same role, the input image when set and the empty image when unset, and the input's
`kubeadmConfigPatches` and `labels`. -/
theorem buildKindConfig_nodes_in_order (params : ClusterParameters)
    (hne : params.Nodes ≠ []) :
    (buildKindConfig params).Nodes ≠ [] ∧
    (buildKindConfig params).Nodes.length = params.Nodes.length ∧
    ∀ (i : Nat) (node : clusterv1alpha1.Node), params.Nodes[i]? = some node →
      ∃ n : v1alpha4.Node, (buildKindConfig params).Nodes[i]? = some n ∧
        n = buildNode node ∧
        n.Role = node.Role ∧
        (∀ image : String, node.Image = some image → n.Image = image) ∧
        (node.Image = none → n.Image = "") ∧
        n.KubeadmConfigPatches = node.KubeadmConfigPatches ∧
        n.Labels = node.Labels := by
  refine ⟨?_, by simp [buildKindConfig_nodes], ?_⟩
  · rw [buildKindConfig_nodes]
    simpa using hne
  · intro i node hi
    refine ⟨buildNode node, buildKindConfig_node_at params i node hi, rfl, ?_⟩
    rw [buildNode_eq]
    refine ⟨rfl, ?_, ?_, rfl, rfl⟩
    · intro image himage
      simp [himage]
    · intro himage
      simp [himage]

theorem buildKindConfig_nodes_in_order_witness :
    sampleParams.Nodes ≠ [] ∧
    (buildKindConfig sampleParams).Nodes ≠ [] ∧
    (buildKindConfig sampleParams).Nodes.length = sampleParams.Nodes.length ∧
    ∀ (i : Nat) (node : clusterv1alpha1.Node), sampleParams.Nodes[i]? = some node →
      ∃ n : v1alpha4.Node, (buildKindConfig sampleParams).Nodes[i]? = some n ∧
        n = buildNode node ∧
        n.Role = node.Role ∧
        (∀ image : String, node.Image = some image → n.Image = image) ∧
        (node.Image = none → n.Image = "") ∧
        n.KubeadmConfigPatches = node.KubeadmConfigPatches ∧
        n.Labels = node.Labels :=
  ⟨by decide, buildKindConfig_nodes_in_order sampleParams (by decide)⟩

/-- C13: the `containerdConfigPatches` of the configuration produced by `buildKindConfig` is the
input sequence itself: same length, and the same patch at every position. -/
theorem buildKindConfig_containerd_patches (params : ClusterParameters) :
    (buildKindConfig params).ContainerdConfigPatches = params.ContainerdConfigPatches ∧
    (buildKindConfig params).ContainerdConfigPatches.length =
      params.ContainerdConfigPatches.length ∧
    ∀ i : Nat, (buildKindConfig params).ContainerdConfigPatches[i]? =
      params.ContainerdConfigPatches[i]? := by
  rw [buildKindConfig_containerd]
  exact ⟨rfl, rfl, fun _ => rfl⟩

/-! ## The projection of the networking block, the mounts and the port mappings -/

/-- C14: with a networking block, each of `ipFamily`, `apiServerAddress`, `apiServerPort`,
`podSubnet`, `serviceSubnet` and `disableDefaultCNI` of the configuration produced by
`buildKindConfig` is the input value when the field is set and the zero value of the
configuration when it is unset; without a networking block all six have the zero value. -/
theorem buildKindConfig_networking_fields (params : ClusterParameters) :
    (∀ net : clusterv1alpha1.Networking, params.Networking = some net →
      (buildKindConfig params).Networking.IPFamily = net.IPFamily.getD "" ∧
      (buildKindConfig params).Networking.APIServerAddress = net.APIServerAddress.getD "" ∧
      (buildKindConfig params).Networking.APIServerPort = net.APIServerPort.getD 0 ∧
      (buildKindConfig params).Networking.PodSubnet = net.PodSubnet.getD "" ∧
      (buildKindConfig params).Networking.ServiceSubnet = net.ServiceSubnet.getD "" ∧
      (buildKindConfig params).Networking.DisableDefaultCNI =
        net.DisableDefaultCNI.getD false) ∧
    (params.Networking = none →
      (buildKindConfig params).Networking.IPFamily = "" ∧
      (buildKindConfig params).Networking.APIServerAddress = "" ∧
      (buildKindConfig params).Networking.APIServerPort = 0 ∧
      (buildKindConfig params).Networking.PodSubnet = "" ∧
      (buildKindConfig params).Networking.ServiceSubnet = "" ∧
      (buildKindConfig params).Networking.DisableDefaultCNI = false) := by
  rw [buildKindConfig_networking]
  constructor
  · intro net hnet
    simp only [hnet, buildNetworking_eq]
    cases params.KubeProxyMode
    · simp
    · by_cases hu : networkingModeUnset params = true
      · simp [hu]
      · simp [hu]
  · intro hnet
    simp only [hnet]
    cases params.KubeProxyMode
    · simp
    · by_cases hu : networkingModeUnset params = true
      · simp [hu]
      · simp [hu]

theorem buildKindConfig_networking_fields_witness :
    sampleParams.Networking =
      some { PodSubnet := some "10.244.0.0/16", DisableDefaultCNI := some true } ∧
    (buildKindConfig sampleParams).Networking.IPFamily = "" ∧
    (buildKindConfig sampleParams).Networking.APIServerAddress = "" ∧
    (buildKindConfig sampleParams).Networking.APIServerPort = 0 ∧
    (buildKindConfig sampleParams).Networking.PodSubnet = "10.244.0.0/16" ∧
    (buildKindConfig sampleParams).Networking.ServiceSubnet = "" ∧
    (buildKindConfig sampleParams).Networking.DisableDefaultCNI = true :=
  ⟨by decide, (buildKindConfig_networking_fields sampleParams).1
    { PodSubnet := some "10.244.0.0/16", DisableDefaultCNI := some true } (by decide)⟩

theorem propagationEnum_same_name (name value : String)
    (hmem : (name, value) ∈ propagationEnum) : value = name := by
  simp only [propagationEnum, v1alpha4.MountPropagationNone,
    v1alpha4.MountPropagationHostToContainer, v1alpha4.MountPropagationBidirectional,
    List.mem_cons, List.mem_singleton, List.not_mem_nil, or_false, Prod.mk.injEq] at hmem
  rcases hmem with ⟨h1, h2⟩ | ⟨h1, h2⟩ | ⟨h1, h2⟩ <;> rw [h1, h2]

theorem protocolEnum_same_name (name value : String)
    (hmem : (name, value) ∈ protocolEnum) : value = name := by
  simp only [protocolEnum, v1alpha4.PortMappingProtocolTCP, v1alpha4.PortMappingProtocolUDP,
    v1alpha4.PortMappingProtocolSCTP,
    List.mem_cons, List.mem_singleton, List.not_mem_nil, or_false, Prod.mk.injEq] at hmem
  rcases hmem with ⟨h1, h2⟩ | ⟨h1, h2⟩ | ⟨h1, h2⟩ <;> rw [h1, h2]

/-- C15: for every input node, the projected node has as many `extraMounts` and
`extraPortMappings` as the input, in the same order, and each is projected field by field:
`hostPath`, `containerPath`, `containerPort` and `hostPort` are copied; `readonly`,
`selinuxRelabel`, `propagation`, `listenAddress` and `protocol` are the input value when set and
false or empty when unset; a `propagation` or `protocol` named in the schema yields the backend
enum value of the same name. -/
theorem buildKindConfig_mounts_and_ports (params : ClusterParameters) (j : Nat)
    (node : clusterv1alpha1.Node) (hj : params.Nodes[j]? = some node) :
    ∃ n : v1alpha4.Node, (buildKindConfig params).Nodes[j]? = some n ∧
      n.ExtraMounts.length = node.ExtraMounts.length ∧
      n.ExtraPortMappings.length = node.ExtraPortMappings.length ∧
      (∀ (i : Nat) (m : clusterv1alpha1.Mount), node.ExtraMounts[i]? = some m →
        ∃ mount : v1alpha4.Mount, n.ExtraMounts[i]? = some mount ∧
          mount.HostPath = m.HostPath ∧
          mount.ContainerPath = m.ContainerPath ∧
          mount.Readonly = m.Readonly.getD false ∧
          mount.SelinuxRelabel = m.SelinuxRelabel.getD false ∧
          mount.Propagation = m.Propagation.getD "" ∧
          (∀ name value : String, (name, value) ∈ propagationEnum →
            m.Propagation = some name → mount.Propagation = value)) ∧
      (∀ (i : Nat) (pm : clusterv1alpha1.PortMapping), node.ExtraPortMappings[i]? = some pm →
        ∃ portMap : v1alpha4.PortMapping, n.ExtraPortMappings[i]? = some portMap ∧
          portMap.ContainerPort = pm.ContainerPort ∧
          portMap.HostPort = pm.HostPort ∧
          portMap.ListenAddress = pm.ListenAddress.getD "" ∧
          portMap.Protocol = pm.Protocol.getD "" ∧
          (∀ name value : String, (name, value) ∈ protocolEnum →
            pm.Protocol = some name → portMap.Protocol = value)) := by
  refine ⟨buildNode node, buildKindConfig_node_at params j node hj, ?_⟩
  rw [buildNode_eq]
  refine ⟨by simp, by simp, ?_, ?_⟩
  · intro i m hi
    refine ⟨buildMount m, by simp [List.getElem?_map, hi], ?_⟩
    rw [buildMount_eq]
    refine ⟨rfl, rfl, rfl, rfl, rfl, ?_⟩
    intro name value hmem hset
    rw [propagationEnum_same_name name value hmem]
    simp [hset]
  · intro i pm hi
    refine ⟨buildPortMapping pm, by simp [List.getElem?_map, hi], ?_⟩
    rw [buildPortMapping_eq]
    refine ⟨rfl, rfl, rfl, rfl, ?_⟩
    intro name value hmem hset
    rw [protocolEnum_same_name name value hmem]
    simp [hset]

theorem buildKindConfig_mounts_and_ports_witness :
    sampleParams.Nodes[1]? = some sampleWorker ∧
    ((buildKindConfig sampleParams).Nodes[1]?).map (fun n => n.ExtraMounts) =
      some [{ ContainerPath := "/mnt/data", HostPath := "/data", Readonly := true,
              SelinuxRelabel := false,
              Propagation := v1alpha4.MountPropagationHostToContainer }] ∧
    ((buildKindConfig sampleParams).Nodes[1]?).map (fun n => n.ExtraPortMappings) =
      some [{ ContainerPort := 80, HostPort := 8080, ListenAddress := "",
              Protocol := v1alpha4.PortMappingProtocolTCP }] ∧
    ∃ n : v1alpha4.Node, (buildKindConfig sampleParams).Nodes[1]? = some n ∧
      n.ExtraMounts.length = sampleWorker.ExtraMounts.length ∧
      n.ExtraPortMappings.length = sampleWorker.ExtraPortMappings.length :=
  ⟨by decide, by decide, by decide,
    let ⟨n, hn, hm, hp, _⟩ :=
      buildKindConfig_mounts_and_ports sampleParams 1 sampleWorker (by decide)
    ⟨n, hn, hm, hp⟩⟩

/-! ## The image lookup -/

theorem head?_dropWhile_isSpace (l : List Char) (c : Char)
    (hc : (l.dropWhile isSpace).head? = some c) : isSpace c = false := by
  have hnot := List.head?_dropWhile_not isSpace l
  rw [hc] at hnot
  exact hnot

/-- The result of `TrimSpace` is the input without a leading and a trailing run of white space,
and it neither starts nor ends with white space. -/
theorem TrimSpace_spec (s : String) :
    ∃ pre post : List Char, s.data = pre ++ (TrimSpace s).data ++ post ∧
      (∀ c ∈ pre, isSpace c = true) ∧ (∀ c ∈ post, isSpace c = true) ∧
      (∀ c : Char, (TrimSpace s).data.head? = some c → isSpace c = false) ∧
      (∀ c : Char, (TrimSpace s).data.getLast? = some c → isSpace c = false) := by
  have hsplit : (s.data.dropWhile isSpace) =
      ((s.data.dropWhile isSpace).reverse.dropWhile isSpace).reverse ++
        ((s.data.dropWhile isSpace).reverse.takeWhile isSpace).reverse := by
    rw [← List.reverse_append, List.takeWhile_append_dropWhile, List.reverse_reverse]
  refine ⟨s.data.takeWhile isSpace,
    ((s.data.dropWhile isSpace).reverse.takeWhile isSpace).reverse, ?_, ?_, ?_, ?_, ?_⟩
  · simp only [TrimSpace]
    rw [List.append_assoc, ← hsplit, List.takeWhile_append_dropWhile]
  · intro c hc
    exact List.mem_takeWhile_imp hc
  · intro c hc
    exact List.mem_takeWhile_imp (List.mem_reverse.1 hc)
  · intro c hc
    simp only [TrimSpace] at hc
    by_cases hnil : ((s.data.dropWhile isSpace).reverse.dropWhile isSpace).reverse = []
    · rw [hnil] at hc
      cases hc
    · apply head?_dropWhile_isSpace s.data c
      rw [hsplit, List.head?_append_of_ne_nil _ hnil]
      exact hc
  · intro c hc
    simp only [TrimSpace, List.getLast?_reverse] at hc
    exact head?_dropWhile_isSpace _ c hc

theorem Observe_err_val_host (h h2 : Host) (e : external) (mg : Managed) :
    (Observe h e mg).err = (Observe h2 e mg).err ∧
    (Observe h e mg).val = (Observe h2 e mg).val ∧
    (Observe h e mg).calls = (Observe h2 e mg).calls := by
  cases mg with
  | other kind => exact ⟨rfl, rfl, rfl⟩
  | cluster cr =>
    rcases hL : e.provider.ListClusters with ⟨clusters, _ | errL⟩
    swap
    · simp [Observe, hL]
    by_cases hin : containsName clusters (getClusterName cr) = true
    swap
    · simp [Observe, hL, hin]
    rcases hK : e.provider.KubeConfig (getClusterName cr) false with ⟨kubeconfig, _ | errK⟩
    swap
    · simp [Observe, hL, hin, hK]
    rcases hN : e.provider.ListNodes (getClusterName cr) with ⟨nodes, _ | errN⟩
    swap
    · simp [Observe, hL, hin, hK, hN]
    simp [Observe, hL, hin, hK, hN, observeNodes_eq]

/-- C16: when the `docker inspect` of a node fails, `nodeImage` is the empty string, and when it
succeeds `nodeImage` is its output without the leading and trailing white space; the error, the
result and the backend calls of `Observe` are the same whatever the image lookup answers; and
after a successful `Observe` of an existing cluster the image recorded for each node is
`nodeImage` of its name, hence empty when the lookup fails. -/
theorem image_lookup_best_effort (h : Host) (e : external) (cr : Cluster) :
    (∀ containerName : String, (h.dockerInspect containerName).2 ≠ none →
      nodeImage h containerName = "") ∧
    (∀ containerName : String, (h.dockerInspect containerName).2 = none →
      nodeImage h containerName = TrimSpace (h.dockerInspect containerName).1 ∧
      ∃ pre post : List Char,
        (h.dockerInspect containerName).1.data =
          pre ++ (nodeImage h containerName).data ++ post ∧
        (∀ c ∈ pre, isSpace c = true) ∧ (∀ c ∈ post, isSpace c = true) ∧
        (∀ c : Char, (nodeImage h containerName).data.head? = some c → isSpace c = false) ∧
        (∀ c : Char, (nodeImage h containerName).data.getLast? = some c →
          isSpace c = false)) ∧
    (∀ d : String → String × Option String,
      (Observe { h with dockerInspect := d } e (.cluster cr)).err =
        (Observe h e (.cluster cr)).err) ∧
    ((Observe h e (.cluster cr)).err = none →
      (Observe h e (.cluster cr)).val.ResourceExists = true →
      ∃ cr', (Observe h e (.cluster cr)).mg = .cluster cr' ∧
        ∀ (i : Nat) (n : NodeHandle),
          (e.provider.ListNodes (getClusterName cr)).1[i]? = some n →
          ∃ o : NodeObservation, cr'.Status.AtProvider.Nodes[i]? = some o ∧
            o.Name = n.name ∧ o.Image = nodeImage h n.name ∧
            ((h.dockerInspect n.name).2 ≠ none → o.Image = "")) := by
  have hfail : ∀ containerName : String, (h.dockerInspect containerName).2 ≠ none →
      nodeImage h containerName = "" := by
    intro containerName hne
    rcases hd : h.dockerInspect containerName with ⟨out, _ | err⟩
    · rw [hd] at hne
      exact absurd rfl hne
    · simp [nodeImage, hd]
  have hok : ∀ containerName : String, (h.dockerInspect containerName).2 = none →
      nodeImage h containerName = TrimSpace (h.dockerInspect containerName).1 := by
    intro containerName hnone
    rcases hd : h.dockerInspect containerName with ⟨out, _ | err⟩
    · simp [nodeImage, hd]
    · rw [hd] at hnone
      cases hnone
  refine ⟨hfail, ?_, ?_, ?_⟩
  · intro containerName hnone
    refine ⟨hok containerName hnone, ?_⟩
    rw [hok containerName hnone]
    exact TrimSpace_spec _
  · intro d
    exact (Observe_err_val_host _ h e _).1
  · intro herr hex
    obtain ⟨_, _, _, _, cr', hmg, hnodes, _⟩ := Observe_exists h e cr herr hex
    refine ⟨cr', hmg, ?_⟩
    intro i n hi
    refine ⟨observeNode h n, by simp [hnodes, List.getElem?_map, hi], rfl, rfl, ?_⟩
    intro hne
    exact hfail n.name hne

theorem image_lookup_best_effort_witness :
    (sampleHost.dockerInspect "lab-worker").2 ≠ none ∧
    nodeImage sampleHost "lab-worker" = "" ∧
    (sampleHost.dockerInspect "dev-control-plane") = ("kindest/node:v1.31.0\n", none) ∧
    nodeImage sampleHost "dev-control-plane" = "kindest/node:v1.31.0" ∧
    (Observe sampleHost sampleExternal (.cluster sampleLab)).err = none :=
  ⟨by decide,
    (image_lookup_best_effort sampleHost sampleExternal sampleLab).1 "lab-worker" (by decide),
    by decide,
    ((image_lookup_best_effort sampleHost sampleExternal sampleLab).2.1 "dev-control-plane"
      (by decide)).1.trans (by decide),
    by decide⟩

/-! ## Resources of another kind -/

/-- C17 (as stated) fails: for a resource that is not a `Cluster`, `Update` returns no error,
not the type-mismatch error. -/
theorem update_type_mismatch_counterexample :
    sampleOther = .other "ProviderConfigUsage" ∧
    (Update sampleExternal sampleOther).err = none ∧
    (Update sampleExternal sampleOther).err ≠ some errNotCluster := by
  decide

/-- C17 (amended): for every resource that is not a `Cluster`, each of `Connect`, `Observe`,
`Create` and `Delete` returns the type-mismatch error with the zero result, makes no backend
call and leaves the resource as it was, whatever the connector, the host and the provider
answer; `Update` makes no type check and returns success with the empty result, also without a
backend call or a change of the resource. -/
theorem type_mismatch_at_entry (c : connector) (h : Host) (e : external) (kind : String) :
    ((Connect c (.other kind)).err = some errNotCluster ∧
      (Connect c (.other kind)).val = none ∧
      (Connect c (.other kind)).calls = [] ∧
      (Connect c (.other kind)).mg = .other kind) ∧
    ((Observe h e (.other kind)).err = some errNotCluster ∧
      (Observe h e (.other kind)).val = {} ∧
      (Observe h e (.other kind)).calls = [] ∧
      (Observe h e (.other kind)).mg = .other kind) ∧
    ((Create h e (.other kind)).err = some errNotCluster ∧
      (Create h e (.other kind)).val = {} ∧
      (Create h e (.other kind)).calls = [] ∧
      (Create h e (.other kind)).mg = .other kind) ∧
    ((Delete e (.other kind)).err = some errNotCluster ∧
      (Delete e (.other kind)).val = {} ∧
      (Delete e (.other kind)).calls = [] ∧
      (Delete e (.other kind)).mg = .other kind) ∧
    ((Update e (.other kind)).err = none ∧
      (Update e (.other kind)).val = {} ∧
      (Update e (.other kind)).calls = [] ∧
      (Update e (.other kind)).mg = .other kind) ∧
    errNotCluster = "managed resource is not a Cluster custom resource" :=
  ⟨⟨rfl, rfl, rfl, rfl⟩, ⟨rfl, rfl, rfl, rfl⟩, ⟨rfl, rfl, rfl, rfl⟩, ⟨rfl, rfl, rfl, rfl⟩,
    ⟨rfl, rfl, rfl, rfl⟩, rfl⟩

theorem type_mismatch_at_entry_witness :
    (Connect sampleConnector sampleOther).err = some errNotCluster ∧
    (Observe sampleHost sampleExternal sampleOther).err = some errNotCluster ∧
    (Create sampleHost sampleExternal sampleOther).err = some errNotCluster ∧
    (Delete sampleExternal sampleOther).err = some errNotCluster ∧
    (Update sampleExternal sampleOther).err = none :=
  let t := type_mismatch_at_entry sampleConnector sampleHost sampleExternal "ProviderConfigUsage"
  ⟨t.1.1, t.2.1.1, t.2.2.1.1, t.2.2.2.1.1, t.2.2.2.2.1.1⟩

end ProviderKind
